import Mathlib

/-!
Verification of the admin-server token-registration endpoint
(`core/server/src/api_server/admin_server.rs`).

The file shallowly embeds the data model and operations of the source:

* the bearer-credential codec (`PayloadAuthToken`, `validate_auth_token`),
  with the external `jsonwebtoken` decoder modelled from the spec;
* the authentication gate (`AuthTokenValidator.validator`) and the
  bearer middleware composition installed by `start_admin_server`;
* the token-registration handler (`add_token`), instrumented with an
  explicit trace of storage operations and warning-log lines so that
  ordering and logging properties are statable.

Machine integers are `Nat` with explicit reduction modulo `2 ^ 16` at the
single place the source narrows (`as u16`).
-/

/-- Model of the 20-byte contract address (`Address` from the models crate,
an H160 value); its internal structure is irrelevant here, only equality. -/
abbrev Address := Nat

/-- `TokenId` is `u16` in the models crate; values are naturals and the one
narrowing cast in the source is embedded as reduction modulo `2 ^ 16`. -/
abbrev TokenId := Nat

/-- The decoded claims of a bearer credential (`PayloadAuthToken`):
subject and expiration timestamp. -/
structure PayloadAuthToken where
  sub : String
  exp : Nat
  deriving DecidableEq, Repr

/-- Modelled from the spec: a bearer credential as consumed by the external
`jsonwebtoken` codec, missing from the sources — a signed, self-contained
token encoding the claims plus a signature computed with the secret of
the signer. `payload = none` represents a structurally malformed token that
fails to decode. -/
structure Credential where
  payload : Option PayloadAuthToken
  signedWith : String
  deriving DecidableEq, Repr

/-- Error type of the external codec (`jsonwebtoken::errors::Error`),
restricted to the kinds this endpoint can hit. -/
inductive JwtError where
  | invalidToken
  | invalidSignature
  | expiredSignature
  deriving DecidableEq, Repr

/-- Modelled from the spec: `jsonwebtoken::decode` with
`Validation::default()`, missing from the sources — decode the structured
payload, verify the signature using the shared secret, and verify `exp`
has not elapsed relative to the current time `now`. -/
def decode (decoding_key : String) (now : Nat) (cred : Credential) :
    Except JwtError PayloadAuthToken :=
  match cred.payload with
  | none => .error .invalidToken
  | some p =>
    if cred.signedWith ≠ decoding_key then .error .invalidSignature
    else if p.exp < now then .error .expiredSignature
    else .ok p

/-- `AuthTokenValidator`: holds the decoding key derived from the shared
secret (`DecodingKey::from_secret`). -/
structure AuthTokenValidator where
  decoding_key : String
  deriving DecidableEq, Repr

/-- `AuthTokenValidator::new`. -/
def AuthTokenValidator.new (secret : String) : AuthTokenValidator :=
  { decoding_key := secret }

/-- `AuthTokenValidator::validate_auth_token`: decode the credential and
drop the payload, keeping only success or failure. `now` stands for the
current time read by the codec. -/
def AuthTokenValidator.validate_auth_token (v : AuthTokenValidator)
    (now : Nat) (token : Credential) : Except JwtError Unit :=
  (decode v.decoding_key now token).map (fun _ => ())

/-- The request body of `POST /tokens` (`AddTokenRequest`). -/
structure AddTokenRequest where
  id : Option TokenId
  address : Address
  symbol : String
  decimals : Nat
  deriving DecidableEq, Repr

/-- The domain record persisted into the registry (`tokens::Token`). -/
structure Token where
  id : TokenId
  address : Address
  symbol : String
  decimals : Nat
  deriving DecidableEq, Repr

/-- Response bodies this endpoint can produce. -/
inductive ResponseBody where
  | empty
  | text (s : String)
  | jsonToken (t : Token)
  deriving DecidableEq, Repr

/-- An HTTP response: status code, body, and the optional
WWW-Authenticate challenge header. -/
structure HttpResponse where
  status : Nat
  body : ResponseBody
  wwwAuthenticate : Option String
  deriving DecidableEq, Repr

/-- The rejection produced by `AuthenticationError::from(config)` with the
default bearer `Config`: 401, empty body, bearer challenge header. -/
def unauthorizedResponse : HttpResponse :=
  { status := 401, body := .empty, wwwAuthenticate := some "Bearer" }

/-- `actix_web::error::ErrorInternalServerError(msg)`: a 500 response whose
body is the display text of the wrapped value. -/
def errorInternalServerError (msg : String) : HttpResponse :=
  { status := 500, body := .text msg, wwwAuthenticate := none }

/-- An incoming service request: the parsed bearer credential of the
`Authorization` header (none when the header is absent) and the JSON body. -/
structure ServiceRequest where
  authHeader : Option Credential
  body : AddTokenRequest
  deriving DecidableEq, Repr

/-- `AuthTokenValidator::validator`: validate the bearer credential; on
success return the request itself, on any validation error return the
uniform unauthorized response built from the default bearer config. -/
def AuthTokenValidator.validator (v : AuthTokenValidator) (now : Nat)
    (req : ServiceRequest) (credentials : Credential) :
    Except HttpResponse ServiceRequest :=
  match v.validate_auth_token now credentials with
  | .ok _ => .ok req
  | .error _ => .error unauthorizedResponse

/-- Modelled from the spec: the interaction of one request with the external
storage collaborator, missing from the sources — the outcome of obtaining
a pooled connection (`access_storage_fragile`), of the token-count lookup
(`tokens_schema().get_count()`, an unsigned machine-width integer), and of
the persist (`tokens_schema().store_token`). Error values carry the
underlying storage error text. -/
structure Storage where
  accessResult : Except String Unit
  countResult : Except String Nat
  storeResult : Except String Unit
  deriving Repr

/-- `AppState`: the shared application state holding the pooled storage
handle. -/
structure AppState where
  connection_pool : Storage
  deriving Repr

/-- `AppState::access_storage`: on failure, log a warning with the
underlying error text and return `ErrorInternalServerError(e)` — note the
response carries the underlying error text `e`, not a generic message.
Returns the warning line alongside the response on the error path. -/
def AppState.access_storage (data : AppState) :
    Except (HttpResponse × String) Storage :=
  match data.connection_pool.accessResult with
  | .error e =>
    .error (errorInternalServerError e, "Failed to access storage: " ++ e)
  | .ok _ => .ok data.connection_pool

/-- One storage operation performed during a request, for tracing. -/
inductive StorageOp where
  | accessStorage
  | getCount
  | storeToken (t : Token)
  deriving DecidableEq, Repr

/-- Whether a traced storage operation is a persist. -/
def StorageOp.isStore : StorageOp → Bool
  | .storeToken _ => true
  | _ => false

/-- The observable outcome of one handler invocation: the HTTP response,
the ordered trace of storage operations, and the warning-log lines. -/
structure HandlerRun where
  response : HttpResponse
  ops : List StorageOp
  warnLog : List String
  deriving DecidableEq, Repr

/-- `add_token`: obtain storage; resolve the id (verbatim when present,
otherwise the stored-token count narrowed by the `as u16` cast, embedded
as `% 2 ^ 16`); build the `Token`; persist it; reply 200 with the token as
JSON. Count-lookup and persist failures reply
`ErrorInternalServerError("storage layer error")` and log the underlying
error at warning level. -/
def add_token (data : AppState) (token_request : AddTokenRequest) :
    HandlerRun :=
  match data.access_storage with
  | .error er =>
    { response := er.1, ops := [.accessStorage], warnLog := [er.2] }
  | .ok storage =>
    let resolved : Except (String × List StorageOp) (TokenId × List StorageOp) :=
      match token_request.id with
      | some id => .ok (id, [.accessStorage])
      | none =>
        match storage.countResult with
        | .ok n => .ok (n % 2 ^ 16, [.accessStorage, .getCount])
        | .error e => .error (e, [.accessStorage, .getCount])
    match resolved with
    | .error (e, ops) =>
      { response := errorInternalServerError "storage layer error"
        ops := ops
        warnLog :=
          ["failed get number of token from database in progress request: "
            ++ e] }
    | .ok (id, ops) =>
      let token : Token :=
        { id := id, address := token_request.address
          symbol := token_request.symbol
          decimals := token_request.decimals }
      match storage.storeResult with
      | .error e =>
        { response := errorInternalServerError "storage layer error"
          ops := ops ++ [.storeToken token]
          warnLog :=
            ["failed add token to database in progress request: " ++ e] }
      | .ok _ =>
        { response :=
            { status := 200, body := .jsonToken token, wwwAuthenticate := none }
          ops := ops ++ [.storeToken token]
          warnLog := [] }

/-- The `POST /tokens` pipeline installed by `start_admin_server`:
`App::new().wrap(HttpAuthentication::bearer(validator))` ahead of the
`add_token` route. Modelled from the spec where the bearer middleware is
missing from the sources: the middleware extracts the bearer credential
from the `Authorization` header and, if the header is absent, rejects with
the challenge response without invoking the validator or the route
handler; otherwise the validator decides, and only on its success does the
request reach `add_token`. -/
def handle_tokens_post (secret : String) (now : Nat) (data : AppState)
    (req : ServiceRequest) : HandlerRun :=
  match req.authHeader with
  | none => { response := unauthorizedResponse, ops := [], warnLog := [] }
  | some credentials =>
    match (AuthTokenValidator.new secret).validator now req credentials with
    | .error resp => { response := resp, ops := [], warnLog := [] }
    | .ok passed => add_token data passed.body

/-! ## Concrete fixtures used by witnesses and counterexamples -/

/-- A storage collaborator where every operation succeeds and the registry
currently holds `n` tokens. -/
def okStorage (n : Nat) : Storage :=
  { accessResult := .ok (), countResult := .ok n, storeResult := .ok () }

/-- A request that omits the id. -/
def ethRequest : AddTokenRequest :=
  { id := none, address := 1, symbol := "ETH", decimals := 18 }

/-- A request that carries the explicit id 7. -/
def usdcRequest : AddTokenRequest :=
  { id := some 7, address := 2, symbol := "USDC", decimals := 6 }

/-! ## Claims about the Token Registry Handler -/

/-- C1 (counterexample). The claim says the stored-token count is used as
the identifier for every count; at count `2 ^ 16` the handler instead
assigns id 0, because of the `as u16` narrowing. -/
theorem C1_count_as_id_counterexample :
    (add_token
        { connection_pool :=
            { accessResult := .ok (), countResult := .ok (2 ^ 16),
              storeResult := .ok () } }
        { id := none, address := 1, symbol := "ETH", decimals := 18 }).response
      = { status := 200,
          body := .jsonToken
            { id := 0, address := 1, symbol := "ETH", decimals := 18 },
          wwwAuthenticate := none }
    ∧ (0 : Nat) ≠ 2 ^ 16 := by
  decide

/-- C1 (amended). When the request omits the id and storage succeeds, the
handler queries the stored-token count and uses it, reduced modulo
`2 ^ 16`, as the identifier of the returned record; in particular a
registry holding exactly 3 tokens yields id 3. -/
theorem C1_auto_assignment (st : Storage) (req : AddTokenRequest) (n : Nat)
    (hid : req.id = none) (ha : st.accessResult = .ok ())
    (hc : st.countResult = .ok n) (hs : st.storeResult = .ok ()) :
    StorageOp.getCount ∈ (add_token { connection_pool := st } req).ops ∧
    (add_token { connection_pool := st } req).response
      = { status := 200,
          body := .jsonToken
            { id := n % 2 ^ 16, address := req.address,
              symbol := req.symbol, decimals := req.decimals },
          wwwAuthenticate := none } ∧
    (n = 3 →
      (add_token { connection_pool := st } req).response
        = { status := 200,
            body := .jsonToken
              { id := 3, address := req.address,
                symbol := req.symbol, decimals := req.decimals },
            wwwAuthenticate := none }) := by
  rcases st with ⟨a, c, s⟩
  rcases req with ⟨i, ad, sy, de⟩
  simp only at hid ha hc hs
  subst hid ha hc hs
  refine ⟨?_, rfl, ?_⟩
  · simp [add_token, AppState.access_storage]
  · rintro rfl
    rfl

/-- C1 (witness). Instantiation at a registry holding exactly 3 tokens. -/
theorem C1_auto_assignment_witness :
    (add_token { connection_pool := okStorage 3 } ethRequest).response
      = { status := 200,
          body := .jsonToken
            { id := 3, address := 1, symbol := "ETH", decimals := 18 },
          wwwAuthenticate := none } :=
  (C1_auto_assignment (okStorage 3) ethRequest 3 rfl rfl rfl rfl).2.2 rfl

/-- C10. When the id is omitted, the stored-token count `n` is narrowed to
a 16-bit id by truncation: the assigned id is `n % 2 ^ 16`, and for any
count of at least `2 ^ 16` the assigned id differs from the count (it
silently wraps to a low id). -/
theorem C10_id_truncation (st : Storage) (req : AddTokenRequest) (n : Nat)
    (hid : req.id = none) (ha : st.accessResult = .ok ())
    (hc : st.countResult = .ok n) (hs : st.storeResult = .ok ()) :
    (add_token { connection_pool := st } req).response
      = { status := 200,
          body := .jsonToken
            { id := n % 2 ^ 16, address := req.address,
              symbol := req.symbol, decimals := req.decimals },
          wwwAuthenticate := none } ∧
    (2 ^ 16 ≤ n → n % 2 ^ 16 ≠ n) := by
  rcases st with ⟨a, c, s⟩
  rcases req with ⟨i, ad, sy, de⟩
  simp only at hid ha hc hs
  subst hid ha hc hs
  refine ⟨rfl, fun hn => ?_⟩
  have h2 : n % 2 ^ 16 < 2 ^ 16 := Nat.mod_lt n (by decide)
  omega

/-- C10 (witness). A registry holding `2 ^ 16 + 3` tokens receives the
wrapped id 3. -/
theorem C10_id_truncation_witness :
    (add_token { connection_pool := okStorage (2 ^ 16 + 3) } ethRequest).response
      = { status := 200,
          body := .jsonToken
            { id := (2 ^ 16 + 3) % 2 ^ 16, address := 1, symbol := "ETH",
              decimals := 18 },
          wwwAuthenticate := none }
    ∧ ((2 ^ 16 + 3) % 2 ^ 16 = 3) :=
  ⟨(C10_id_truncation (okStorage (2 ^ 16 + 3)) ethRequest (2 ^ 16 + 3)
      rfl rfl rfl rfl).1, by decide⟩

/-- C3. With an explicit id and successful storage access and persist, the
handler returns the record built verbatim from the supplied id and the
request fields; its storage trace is exactly one connection access and one
persist — in particular no count lookup and no read of existing ids, so no
collision check happens at this layer. -/
theorem C3_explicit_id_roundtrip (st : Storage) (req : AddTokenRequest)
    (i : TokenId) (hid : req.id = some i) (ha : st.accessResult = .ok ())
    (hs : st.storeResult = .ok ()) :
    add_token { connection_pool := st } req
      = { response :=
            { status := 200,
              body := .jsonToken
                { id := i, address := req.address, symbol := req.symbol,
                  decimals := req.decimals },
              wwwAuthenticate := none },
          ops := [.accessStorage,
            .storeToken
              { id := i, address := req.address, symbol := req.symbol,
                decimals := req.decimals }],
          warnLog := [] } ∧
    StorageOp.getCount ∉ (add_token { connection_pool := st } req).ops := by
  rcases st with ⟨a, c, s⟩
  rcases req with ⟨j, ad, sy, de⟩
  simp only at hid ha hs
  subst hid ha hs
  exact ⟨rfl, by simp [add_token, AppState.access_storage]⟩

/-- C3 (witness). Instantiation at the explicit id 7. -/
theorem C3_explicit_id_roundtrip_witness :
    add_token { connection_pool := okStorage 0 } usdcRequest
      = { response :=
            { status := 200,
              body := .jsonToken
                { id := 7, address := 2, symbol := "USDC", decimals := 6 },
              wwwAuthenticate := none },
          ops := [.accessStorage,
            .storeToken { id := 7, address := 2, symbol := "USDC", decimals := 6 }],
          warnLog := [] } :=
  (C3_explicit_id_roundtrip (okStorage 0) usdcRequest 7 rfl rfl rfl).1

/-- Whether a traced storage operation is the count lookup. -/
def StorageOp.isGetCount : StorageOp → Bool
  | .getCount => true
  | _ => false

/-- Every handler invocation produces one of four storage traces, each
containing at most one count lookup and at most one persist. -/
theorem add_token_ops_shape (data : AppState) (req : AddTokenRequest) :
    (add_token data req).ops = [.accessStorage] ∨
    (add_token data req).ops = [.accessStorage, .getCount] ∨
    (∃ t, (add_token data req).ops = [.accessStorage, .storeToken t]) ∨
    (∃ t, (add_token data req).ops
      = [.accessStorage, .getCount, .storeToken t]) := by
  rcases data with ⟨⟨a, c, s⟩⟩
  rcases req with ⟨i, ad, sy, de⟩
  cases a with
  | error e => simp [add_token, AppState.access_storage]
  | ok u =>
    cases i with
    | some j =>
      cases s <;> simp [add_token, AppState.access_storage]
    | none =>
      cases c with
      | error e => simp [add_token, AppState.access_storage]
      | ok n =>
        cases s <;> simp [add_token, AppState.access_storage]

/-- C8. When the id is omitted and the count lookup fails, the handler
replies with the generic internal-server error and never attempts the
persist; moreover, for every invocation whatsoever, the count lookup and
the persist are each invoked at most once. -/
theorem C8_count_failure_no_persist (st : Storage) (req : AddTokenRequest)
    (e : String) (hid : req.id = none) (ha : st.accessResult = .ok ())
    (hc : st.countResult = .error e) :
    (add_token { connection_pool := st } req).response
      = errorInternalServerError "storage layer error" ∧
    (∀ t, StorageOp.storeToken t ∉ (add_token { connection_pool := st } req).ops) ∧
    (∀ (data : AppState) (r : AddTokenRequest),
      ((add_token data r).ops.countP (fun op => op.isGetCount)) ≤ 1 ∧
      ((add_token data r).ops.countP (fun op => op.isStore)) ≤ 1) := by
  refine ⟨?_, ?_, ?_⟩
  · rcases st with ⟨a, c, s⟩
    rcases req with ⟨i, ad, sy, de⟩
    simp only at hid ha hc
    subst hid ha hc
    rfl
  · rcases st with ⟨a, c, s⟩
    rcases req with ⟨i, ad, sy, de⟩
    simp only at hid ha hc
    subst hid ha hc
    intro t
    simp [add_token, AppState.access_storage]
  · intro data r
    rcases add_token_ops_shape data r with h | h | ⟨t, h⟩ | ⟨t, h⟩ <;>
      simp [h, List.countP_cons, StorageOp.isGetCount, StorageOp.isStore]

/-- C8 (witness). Instantiation at a failed count lookup. -/
theorem C8_count_failure_no_persist_witness :
    (add_token
        { connection_pool :=
            { accessResult := .ok (), countResult := .error "count failed",
              storeResult := .ok () } }
        ethRequest).response
      = errorInternalServerError "storage layer error" :=
  (C8_count_failure_no_persist
    { accessResult := .ok (), countResult := .error "count failed",
      storeResult := .ok () }
    ethRequest "count failed" rfl rfl rfl).1

/-- C2 (counterexample). A failure to obtain the storage connection
produces a 500 whose body is the underlying storage error text, not the
generic message: `access_storage` wraps the raw error into the response. -/
theorem C2_generic_body_counterexample :
    (add_token
        { connection_pool :=
            { accessResult := .error "db down", countResult := .ok 0,
              storeResult := .ok () } }
        { id := none, address := 1, symbol := "ETH", decimals := 18 })
      = { response :=
            { status := 500, body := .text "db down", wwwAuthenticate := none },
          ops := [.accessStorage],
          warnLog := ["Failed to access storage: db down"] } ∧
    ResponseBody.text "db down" ≠ ResponseBody.text "storage layer error" := by
  decide

/-- C2 (amended). Every storage failure yields HTTP 500 and a warning-log
line carrying the underlying error text; count-lookup and persist failures
use the generic body, while a connection-access failure leaks the
underlying error text into the response body. -/
theorem C2_storage_failure_responses (st : Storage) (req : AddTokenRequest)
    (i : TokenId) (n : Nat) (e : String) :
    (st.accessResult = .error e →
      add_token { connection_pool := st } req
        = { response := errorInternalServerError e,
            ops := [.accessStorage],
            warnLog := ["Failed to access storage: " ++ e] }) ∧
    (req.id = none → st.accessResult = .ok () → st.countResult = .error e →
      (add_token { connection_pool := st } req).response
          = errorInternalServerError "storage layer error" ∧
      (add_token { connection_pool := st } req).warnLog
          = ["failed get number of token from database in progress request: "
              ++ e]) ∧
    ((req.id = some i ∨ (req.id = none ∧ st.countResult = .ok n)) →
      st.accessResult = .ok () → st.storeResult = .error e →
      (add_token { connection_pool := st } req).response
          = errorInternalServerError "storage layer error" ∧
      (add_token { connection_pool := st } req).warnLog
          = ["failed add token to database in progress request: " ++ e]) := by
  refine ⟨fun ha => ?_, fun hid ha hc => ?_, fun hor ha hs => ?_⟩
  · rcases st with ⟨a, c, s⟩
    simp only at ha
    subst ha
    rfl
  · rcases st with ⟨a, c, s⟩
    rcases req with ⟨j, ad, sy, de⟩
    simp only at hid ha hc
    subst hid ha hc
    exact ⟨rfl, rfl⟩
  · rcases st with ⟨a, c, s⟩
    rcases req with ⟨j, ad, sy, de⟩
    simp only at ha hs
    subst ha hs
    rcases hor with hid | ⟨hid, hc⟩
    · simp only at hid
      subst hid
      exact ⟨rfl, rfl⟩
    · simp only at hid hc
      subst hid hc
      exact ⟨rfl, rfl⟩

/-- C2 (witness). Instantiations of the failure cases: connection access,
count lookup, persist after an explicit id, and persist after an
auto-assigned id. -/
theorem C2_storage_failure_responses_witness :
    (add_token
        { connection_pool :=
            { accessResult := .error "pool exhausted", countResult := .ok 0,
              storeResult := .ok () } }
        ethRequest).response
      = errorInternalServerError "pool exhausted" ∧
    (add_token
        { connection_pool :=
            { accessResult := .ok (), countResult := .error "read failed",
              storeResult := .ok () } }
        ethRequest).response
      = errorInternalServerError "storage layer error" ∧
    (add_token
        { connection_pool :=
            { accessResult := .ok (), countResult := .ok 0,
              storeResult := .error "write failed" } }
        usdcRequest).response
      = errorInternalServerError "storage layer error" ∧
    (add_token
        { connection_pool :=
            { accessResult := .ok (), countResult := .ok 0,
              storeResult := .error "write failed" } }
        ethRequest).response
      = errorInternalServerError "storage layer error" :=
  ⟨congrArg HandlerRun.response
      ((C2_storage_failure_responses
          { accessResult := .error "pool exhausted", countResult := .ok 0,
            storeResult := .ok () }
          ethRequest 7 0 "pool exhausted").1 rfl),
    ((C2_storage_failure_responses
        { accessResult := .ok (), countResult := .error "read failed",
          storeResult := .ok () }
        ethRequest 7 0 "read failed").2.1 rfl rfl rfl).1,
    ((C2_storage_failure_responses
        { accessResult := .ok (), countResult := .ok 0,
          storeResult := .error "write failed" }
        usdcRequest 7 0 "write failed").2.2 (Or.inl rfl) rfl rfl).1,
    ((C2_storage_failure_responses
        { accessResult := .ok (), countResult := .ok 0,
          storeResult := .error "write failed" }
        ethRequest 7 0 "write failed").2.2 (Or.inr ⟨rfl, rfl⟩) rfl rfl).1⟩

/-! ## Claims about the Token Codec/Validator and the Authentication Gate -/

/-- C4. A credential whose expiration timestamp lies strictly in the past
fails validation, whatever secret it was signed with. -/
theorem C4_expired_rejected (secret : String) (now : Nat) (cred : Credential)
    (p : PayloadAuthToken) (hp : cred.payload = some p)
    (hexp : p.exp < now) :
    ∃ e, (AuthTokenValidator.new secret).validate_auth_token now cred
      = .error e := by
  by_cases hkey : cred.signedWith = secret
  · exact ⟨.expiredSignature,
      by simp [AuthTokenValidator.validate_auth_token, AuthTokenValidator.new,
        decode, hp, hkey, hexp, Except.map]⟩
  · exact ⟨.invalidSignature,
      by simp [AuthTokenValidator.validate_auth_token, AuthTokenValidator.new,
        decode, hp, hkey, Except.map]⟩

/-- C4 (witness). An expired credential signed with the wrong secret is
rejected. -/
theorem C4_expired_rejected_witness :
    ∃ e, (AuthTokenValidator.new "secret").validate_auth_token 100
        { payload := some { sub := "admin", exp := 50 },
          signedWith := "other" }
      = .error e :=
  C4_expired_rejected "secret" 100
    { payload := some { sub := "admin", exp := 50 }, signedWith := "other" }
    { sub := "admin", exp := 50 } rfl (by decide)

/-- C9. Validation succeeds only when the credential decodes to a payload
carrying the subject and expiration claims, its signature was produced
with the configured shared secret, and the expiration has not elapsed. -/
theorem C9_success_conditions (secret : String) (now : Nat)
    (cred : Credential)
    (h : (AuthTokenValidator.new secret).validate_auth_token now cred
      = .ok ()) :
    ∃ p, cred.payload = some p ∧ cred.signedWith = secret ∧ now ≤ p.exp := by
  rcases hcp : cred.payload with _ | p
  · simp [AuthTokenValidator.validate_auth_token, AuthTokenValidator.new,
      decode, hcp, Except.map] at h
  · simp only [AuthTokenValidator.validate_auth_token, AuthTokenValidator.new,
      decode, hcp] at h
    split at h
    · simp [Except.map] at h
    · split at h
      · simp [Except.map] at h
      · rename_i hkey hexp
        exact ⟨p, rfl, by simpa using hkey, by omega⟩

/-- C9 (witness). A well-formed, correctly signed, unexpired credential
passes, and the theorem recovers the three conditions. -/
theorem C9_success_conditions_witness :
    ∃ p, ({ payload := some { sub := "admin", exp := 200 },
            signedWith := "secret" } : Credential).payload = some p ∧
      ("secret" : String) = "secret" ∧ 100 ≤ p.exp :=
  C9_success_conditions "secret" 100
    { payload := some { sub := "admin", exp := 200 }, signedWith := "secret" }
    rfl

/-- C5. Every authentication failure — missing header, malformed
credential, wrong signature, or expiration — produces one and the same
unauthorized response: 401 with the bearer challenge, carrying no
indication of which check failed. -/
theorem C5_uniform_unauthorized (secret : String) (now : Nat)
    (data : AppState) (req : ServiceRequest)
    (hfail : ∀ c, req.authHeader = some c →
      ∃ e, (AuthTokenValidator.new secret).validate_auth_token now c
        = .error e) :
    (handle_tokens_post secret now data req).response = unauthorizedResponse ∧
    unauthorizedResponse
      = { status := 401, body := .empty, wwwAuthenticate := some "Bearer" } := by
  refine ⟨?_, rfl⟩
  rcases hh : req.authHeader with _ | c
  · simp [handle_tokens_post, hh]
  · obtain ⟨e, he⟩ := hfail c hh
    simp [handle_tokens_post, hh, AuthTokenValidator.validator, he]

/-- C5 (witness). A request with a structurally malformed credential gets
the uniform unauthorized response. -/
theorem C5_uniform_unauthorized_witness :
    (handle_tokens_post "secret" 100 { connection_pool := okStorage 0 }
        { authHeader := some { payload := none, signedWith := "secret" },
          body := ethRequest }).response
      = unauthorizedResponse :=
  (C5_uniform_unauthorized "secret" 100 { connection_pool := okStorage 0 }
    { authHeader := some { payload := none, signedWith := "secret" },
      body := ethRequest }
    (by
      intro c hc
      simp only [Option.some.injEq] at hc
      subst hc
      exact ⟨.invalidToken, rfl⟩)).1

/-- C6. A request with no Authorization header is answered 401 with the
bearer challenge, and the handler is never invoked: the storage trace of
the run is empty. -/
theorem C6_missing_header_no_storage (secret : String) (now : Nat)
    (data : AppState) (req : ServiceRequest)
    (h : req.authHeader = none) :
    handle_tokens_post secret now data req
      = { response :=
            { status := 401, body := .empty, wwwAuthenticate := some "Bearer" },
          ops := [], warnLog := [] } := by
  simp [handle_tokens_post, h, unauthorizedResponse]

/-- C6 (witness). Instantiation at a concrete header-less request. -/
theorem C6_missing_header_no_storage_witness :
    handle_tokens_post "secret" 100 { connection_pool := okStorage 0 }
        { authHeader := none, body := ethRequest }
      = { response :=
            { status := 401, body := .empty, wwwAuthenticate := some "Bearer" },
          ops := [], warnLog := [] } :=
  C6_missing_header_no_storage "secret" 100 { connection_pool := okStorage 0 }
    { authHeader := none, body := ethRequest } rfl

/-- C7. When the credential validates, the gate returns the incoming
request itself, unmodified, and the pipeline then runs the handler on the
body of that same request. -/
theorem C7_request_unchanged (secret : String) (now : Nat)
    (data : AppState) (req : ServiceRequest) (cred : Credential)
    (hh : req.authHeader = some cred)
    (hv : (AuthTokenValidator.new secret).validate_auth_token now cred
      = .ok ()) :
    (AuthTokenValidator.new secret).validator now req cred = .ok req ∧
    handle_tokens_post secret now data req = add_token data req.body := by
  constructor
  · simp [AuthTokenValidator.validator, hv]
  · simp [handle_tokens_post, hh, AuthTokenValidator.validator, hv]

/-- C7 (witness). A valid credential passes the gate and the pipeline
equals a direct handler invocation on the request body. -/
theorem C7_request_unchanged_witness :
    (AuthTokenValidator.new "secret").validator 100
        { authHeader :=
            some { payload := some { sub := "admin", exp := 200 },
                   signedWith := "secret" },
          body := ethRequest }
        { payload := some { sub := "admin", exp := 200 },
          signedWith := "secret" }
      = .ok
        { authHeader :=
            some { payload := some { sub := "admin", exp := 200 },
                   signedWith := "secret" },
          body := ethRequest } :=
  (C7_request_unchanged "secret" 100 { connection_pool := okStorage 0 }
    { authHeader :=
        some { payload := some { sub := "admin", exp := 200 },
               signedWith := "secret" },
      body := ethRequest }
    { payload := some { sub := "admin", exp := 200 }, signedWith := "secret" }
    rfl rfl).1
